import Mathlib

/-!
Shallow embedding of `src/chatbot.py` (network-switching bridge chatbot).

The Python module keeps four module-level globals (`wallet_provider`,
`current_chain_id`, `wallet_providers_cache`, `agentkit`) plus the persisted
`wallet_data.txt` snapshot file; these are gathered into `GState`.  All
external effects (CdpWalletProvider construction, balance queries, contract
transactions, receipt waits, wallet export, AgentKit construction) are
modelled by an `Env` record of oracles; a Python exception raised by an
external call is an `Except.error` carrying `str(e)`.  Every operation
additionally returns the list of externally visible effects it performed
(network calls, cache mutations, persistence writes), so that frame claims
("no network I/O", "no persistence write") can be stated as facts about the
returned effect trace.
-/

/-- A provider's reported network identity (result of `get_network()`). -/
structure Network where
  chain_id : String
  network_id : Option String
deriving DecidableEq

/-- A `CdpWalletProvider` object: an identity (reference) plus the network it
reports.  Two providers are "the same object" when they are equal here. -/
structure Provider where
  pid : Nat
  network : Network
deriving DecidableEq

/-- The `AgentKit` object rebuilt on every switch; it wraps the provider it
was constructed with. -/
structure AgentKitVal where
  provider : Provider
deriving DecidableEq

/-- A positional argument of a contract call (Python passes strings and ints). -/
inductive Arg where
  | str (s : String)
  | int (i : Int)
deriving DecidableEq

/-- Externally visible side effects of the operations. -/
inductive Effect where
  | constructProvider (chain_id : String)
  | cacheStore (chain_id : String)
  | cacheDelete (chain_id : String)
  | persistWrite (data : String)
  | balanceProbe (pid : Nat)
  | transactCall (pid : Nat) (contract_address : String) (function_name : String)
      (args : List Arg) (value : Int)
  | receiptWait (pid : Nat) (tx_hash : String)
  | readCall (pid : Nat) (contract_address : String) (function_name : String)
      (args : List Arg)
deriving DecidableEq

/-- Registry entry of `SUPPORTED_CHAINS`. -/
structure ChainInfo where
  name : String
  contract_address : String
  explorer_url : String
deriving DecidableEq

/-- The bridge contract address shared by every registry entry. -/
def BRIDGE_ADDRESS : String := "0xEBE8Ca83dfFeaa2288a70B4f1e29EcD089d325E2"

/-- The `SUPPORTED_CHAINS` dictionary of `chatbot.py`, in insertion order.
Each entry is (chain id, (name, contract_address, explorer_url)). -/
def SUPPORTED_CHAINS : List (String × ChainInfo) := [
  ("84532", ⟨"Base Sepolia", BRIDGE_ADDRESS, "https://sepolia.basescan.org"⟩),
  ("11155111", ⟨"Ethereum Sepolia", BRIDGE_ADDRESS, "https://sepolia.etherscan.io"⟩),
  ("421614", ⟨"Arbitrum Sepolia", BRIDGE_ADDRESS, "https://sepolia.arbiscan.io"⟩),
  ("11155420", ⟨"Optimism Sepolia", BRIDGE_ADDRESS, "https://sepolia-optimism.etherscan.io"⟩),
  ("8453", ⟨"Base Mainnet", BRIDGE_ADDRESS, "https://basescan.org"⟩),
  ("1", ⟨"Ethereum Mainnet", BRIDGE_ADDRESS, "https://etherscan.io"⟩),
  ("42161", ⟨"Arbitrum One", BRIDGE_ADDRESS, "https://arbiscan.io"⟩),
  ("10", ⟨"Optimism", BRIDGE_ADDRESS, "https://optimistic.etherscan.io"⟩),
  ("80001", ⟨"Polygon Mumbai", BRIDGE_ADDRESS, "https://mumbai.polygonscan.com"⟩),
  ("137", ⟨"Polygon", BRIDGE_ADDRESS, "https://polygonscan.com"⟩)]

def DEFAULT_CHAIN_ID : String := "84532"

/-- Lookup in a Python dict modelled as an insertion-ordered association list. -/
def dictLookup {α : Type} : List (String × α) → String → Option α
  | [], _ => none
  | kv :: rest, k => if kv.1 = k then some kv.2 else dictLookup rest k

/-- Python `del d[k]` on an association list with unique keys. -/
def dictErase {α : Type} : List (String × α) → String → List (String × α)
  | [], _ => []
  | kv :: rest, k => if kv.1 = k then dictErase rest k else kv :: dictErase rest k

/-- Python `d[k] = v` on an association list (replace in place, else append). -/
def dictInsert {α : Type} : List (String × α) → String → α → List (String × α)
  | [], k, v => [(k, v)]
  | kv :: rest, k, v => if kv.1 = k then (k, v) :: rest else kv :: dictInsert rest k v

/-- `', '.join(SUPPORTED_CHAINS.keys())` as used in the unsupported-chain error. -/
def chainListing : String := String.intercalate ", " (SUPPORTED_CHAINS.map Prod.fst)

/-- Python `int()` applied to an exact `Decimal`: truncation toward zero. -/
def pyInt (q : ℚ) : Int := if 0 ≤ q then q.floor else q.ceil

/-- The module-level mutable state of `chatbot.py` plus the wallet snapshot
file (`none` models a missing `wallet_data.txt`). -/
structure GState where
  wallet_provider : Option Provider
  current_chain_id : String
  wallet_providers_cache : List (String × Provider)
  agentkit : Option AgentKitVal
  wallet_data_file : Option String
deriving DecidableEq

/-- State at module import time: globals as assigned at lines 366 to 369 of
`chatbot.py`, with an arbitrary snapshot-file content. -/
def initState (file : Option String) : GState :=
  { wallet_provider := none
    current_chain_id := DEFAULT_CHAIN_ID
    wallet_providers_cache := []
    agentkit := none
    wallet_data_file := file }

/-- Oracles for the external world.  Each fallible Python call is a function
into `Except String`, the error carrying `str(e)` of the raised exception. -/
structure Env where
  construct : String → Option String → Except String Provider
  constructDefault : Option String → Except String Provider
  get_balance : Provider → Except String Nat
  transact : Provider → String → String → List Arg → Int → Except String String
  wait_receipt : Provider → String → Except String String
  export_wallet : Provider → String
  mk_agentkit : Provider → Except String AgentKitVal
  read_call : Provider → String → String → List Arg → Except String Int

/-- `get_contract_address()`: registry entry for the current chain, or the
`ValueError` message. -/
def get_contract_address (s : GState) : Except String String :=
  match dictLookup SUPPORTED_CHAINS s.current_chain_id with
  | some info => Except.ok info.contract_address
  | none => Except.error ("Chain ID " ++ s.current_chain_id ++ " not supported")

/-- `get_chain_name()`. -/
def get_chain_name (s : GState) : Except String String :=
  match dictLookup SUPPORTED_CHAINS s.current_chain_id with
  | some info => Except.ok info.name
  | none => Except.error ("Chain ID " ++ s.current_chain_id ++ " not supported")

/-- `get_explorer_url()`. -/
def get_explorer_url (s : GState) : Except String String :=
  match dictLookup SUPPORTED_CHAINS s.current_chain_id with
  | some info => Except.ok info.explorer_url
  | none => Except.error ("Chain ID " ++ s.current_chain_id ++ " not supported")

/-- `get_cdp_wallet_provider_for_chain(chain_id)`: cache hit returns the cached
provider with no effects; cache miss reads the snapshot file, constructs a
provider (a construction exception propagates, leaving the state as it was),
stores it in the cache, then persists the exported wallet snapshot. -/
def get_cdp_wallet_provider_for_chain (env : Env) (chain_id : String) (s : GState) :
    Except String Provider × GState × List Effect :=
  match dictLookup s.wallet_providers_cache chain_id with
  | some p => (Except.ok p, s, [])
  | none =>
    match env.construct chain_id s.wallet_data_file with
    | Except.error e => (Except.error e, s, [Effect.constructProvider chain_id])
    | Except.ok provider =>
      let updated := env.export_wallet provider
      (Except.ok provider,
        { s with
          wallet_providers_cache := dictInsert s.wallet_providers_cache chain_id provider
          wallet_data_file := some updated },
        [Effect.constructProvider chain_id, Effect.cacheStore chain_id,
         Effect.persistWrite updated])

/-- Body of `switch_network`'s `try` block (lines 421 to 468), entered after
the registry and no-op guards: clear any stale cache entry, build a fresh
provider, verify its reported identity, probe liveness via `get_balance`,
then commit the two session globals and rebuild `agentkit`.  An
`Except.error` result of an oracle models the corresponding exception. -/
def switch_attempt (env : Env) (new_chain_id : String) (info : ChainInfo) (s : GState) :
    String × GState × List Effect :=
  let hadCached := (dictLookup s.wallet_providers_cache new_chain_id).isSome
  let s0 := if hadCached then
      { s with wallet_providers_cache := dictErase s.wallet_providers_cache new_chain_id }
    else s
  let delTrace := if hadCached then [Effect.cacheDelete new_chain_id] else ([] : List Effect)
  match get_cdp_wallet_provider_for_chain env new_chain_id s0 with
  | (Except.error e, s1, t1) =>
      ("Error switching to chain " ++ new_chain_id ++ ": " ++ e, s1, delTrace ++ t1)
  | (Except.ok new_provider, s1, t1) =>
    if new_provider.network.chain_id ≠ new_chain_id then
      ("Error: Provider chain mismatch. Expected " ++ new_chain_id ++ ", got " ++
          new_provider.network.chain_id, s1, delTrace ++ t1)
    else
      match env.get_balance new_provider with
      | Except.error e =>
          ("Error connecting to " ++ info.name ++ ": " ++ e, s1,
            delTrace ++ t1 ++ [Effect.balanceProbe new_provider.pid])
      | Except.ok _ =>
        let s2 := { s1 with
          current_chain_id := new_chain_id
          wallet_provider := some new_provider }
        match env.mk_agentkit new_provider with
        | Except.error e =>
            ("Error switching to chain " ++ new_chain_id ++ ": " ++ e, s2,
              delTrace ++ t1 ++ [Effect.balanceProbe new_provider.pid])
        | Except.ok ak =>
            ("Switched to " ++ info.name ++ " (Chain ID: " ++ new_chain_id ++ ")",
              { s2 with agentkit := some ak },
              delTrace ++ t1 ++ [Effect.balanceProbe new_provider.pid])

/-- `switch_network(new_chain_id)` (lines 406 to 470 of `chatbot.py`). -/
def switch_network (env : Env) (new_chain_id : String) (s : GState) :
    String × GState × List Effect :=
  match dictLookup SUPPORTED_CHAINS new_chain_id with
  | none =>
      ("Error: Chain ID " ++ new_chain_id ++ " not supported. Must be one of: " ++
        chainListing, s, [])
  | some info =>
    if new_chain_id = s.current_chain_id then
      ("Already on " ++ info.name ++ " (Chain ID: " ++ s.current_chain_id ++ ")", s, [])
    else
      switch_attempt env new_chain_id info s

/-- Successful result dictionary of `invoke_contract_function`. -/
structure TxOk where
  tx_hash : String
  receipt : String
  chain_id : String
  chain_name : String
  explorer_url : String
deriving DecidableEq

/-- Result dictionary of `invoke_contract_function`: either the success keys
or an `error` key. -/
inductive InvokeResult where
  | ok (r : TxOk)
  | err (msg : String)
deriving DecidableEq

/-- The `try` block of `invoke_contract_function` (lines 548 to 579): an
`Except.error` outcome is an exception escaping the block; `Except.ok` is a
`return`.  The chain-affinity failure is a returned dictionary, not an
exception. -/
def invoke_contract_body (env : Env) (provider : Provider) (function_name : String)
    (args : List Arg) (value : ℚ) (s : GState) : Except String InvokeResult × List Effect :=
  if provider.network.chain_id ≠ s.current_chain_id then
    (Except.ok (InvokeResult.err ("Chain mismatch: Wallet on chain " ++
        provider.network.chain_id ++ ", but global chain is " ++ s.current_chain_id)), [])
  else
    match get_contract_address s with
    | Except.error e => (Except.error e, [])
    | Except.ok contract_address =>
      let wei : Int := if 0 < value then pyInt (value * 10 ^ 18) else 0
      match env.transact provider contract_address function_name args wei with
      | Except.error e =>
          (Except.error e,
            [Effect.transactCall provider.pid contract_address function_name args wei])
      | Except.ok tx_hash =>
        match env.wait_receipt provider tx_hash with
        | Except.error e =>
            (Except.error e,
              [Effect.transactCall provider.pid contract_address function_name args wei,
               Effect.receiptWait provider.pid tx_hash])
        | Except.ok receipt =>
          match get_chain_name s with
          | Except.error e =>
              (Except.error e,
                [Effect.transactCall provider.pid contract_address function_name args wei,
                 Effect.receiptWait provider.pid tx_hash])
          | Except.ok chain_name =>
            match get_explorer_url s with
            | Except.error e =>
                (Except.error e,
                  [Effect.transactCall provider.pid contract_address function_name args wei,
                   Effect.receiptWait provider.pid tx_hash])
            | Except.ok exp_url =>
                (Except.ok (InvokeResult.ok
                    { tx_hash := tx_hash, receipt := receipt,
                      chain_id := s.current_chain_id, chain_name := chain_name,
                      explorer_url := exp_url ++ "/tx/" ++ tx_hash }),
                  [Effect.transactCall provider.pid contract_address function_name args wei,
                   Effect.receiptWait provider.pid tx_hash])

/-- `invoke_contract_function` (lines 534 to 581): the `try` body wrapped by
`except Exception as e: return {"error": str(e)}`. -/
def invoke_contract_function (env : Env) (provider : Provider) (function_name : String)
    (args : List Arg) (value : ℚ) (s : GState) : InvokeResult × List Effect :=
  match invoke_contract_body env provider function_name args value s with
  | (Except.ok r, t) => (r, t)
  | (Except.error e, t) => (InvokeResult.err e, t)

/-- Result dictionary of `read_contract`. -/
inductive ReadResult where
  | ok (result : Int) (chain_id : String) (chain_name : String)
  | err (msg : String)
deriving DecidableEq

/-- The `try` block of `read_contract` (lines 594 to 611). -/
def read_contract_body (env : Env) (provider : Provider) (function_name : String)
    (args : List Arg) (s : GState) : Except String ReadResult × List Effect :=
  if provider.network.chain_id ≠ s.current_chain_id then
    (Except.ok (ReadResult.err ("Chain mismatch: provider on chain " ++
        provider.network.chain_id ++ ", global chain is " ++ s.current_chain_id)), [])
  else
    match get_contract_address s with
    | Except.error e => (Except.error e, [])
    | Except.ok contract_address =>
      match env.read_call provider contract_address function_name args with
      | Except.error e =>
          (Except.error e,
            [Effect.readCall provider.pid contract_address function_name args])
      | Except.ok result =>
        match get_chain_name s with
        | Except.error e =>
            (Except.error e,
              [Effect.readCall provider.pid contract_address function_name args])
        | Except.ok chain_name =>
            (Except.ok (ReadResult.ok result s.current_chain_id chain_name),
              [Effect.readCall provider.pid contract_address function_name args])

/-- `read_contract` (lines 584 to 613): the `try` body with the catch-all. -/
def read_contract (env : Env) (provider : Provider) (function_name : String)
    (args : List Arg) (s : GState) : ReadResult × List Effect :=
  match read_contract_body env provider function_name args s with
  | (Except.ok r, t) => (r, t)
  | (Except.error e, t) => (ReadResult.err e, t)

/-- `crosschain_mint(provider, to_address, amount)` (lines 619 to 627).  An
`Except.error` is an exception escaping the function. -/
def crosschain_mint (env : Env) (provider : Provider) (to_address : String)
    (amount : Int) (s : GState) : Except String String × List Effect :=
  match invoke_contract_function env provider "crosschainMint"
      [Arg.str to_address, Arg.int amount] 0 s with
  | (InvokeResult.err e, t) => (Except.ok ("Error: " ++ e), t)
  | (InvokeResult.ok r, t) =>
    match get_chain_name s with
    | Except.error e => (Except.error e, t)
    | Except.ok name =>
        (Except.ok ("Successfully minted " ++ toString amount ++ " tokens to " ++
          to_address ++ " on " ++ name ++ ".\nTransaction: " ++ r.explorer_url), t)

/-- `crosschain_burn(provider, from_address, amount)` (lines 630 to 638). -/
def crosschain_burn (env : Env) (provider : Provider) (from_address : String)
    (amount : Int) (s : GState) : Except String String × List Effect :=
  match invoke_contract_function env provider "crosschainBurn"
      [Arg.str from_address, Arg.int amount] 0 s with
  | (InvokeResult.err e, t) => (Except.ok ("Error: " ++ e), t)
  | (InvokeResult.ok r, t) =>
    match get_chain_name s with
    | Except.error e => (Except.error e, t)
    | Except.ok name =>
        (Except.ok ("Successfully burned " ++ toString amount ++ " tokens from " ++
          from_address ++ " on " ++ name ++ ".\nTransaction: " ++ r.explorer_url), t)

/-- `initialize_agent` (lines 809 to 930), restricted to its effect on the
module globals: build the startup provider from the snapshot file (a failure
here propagates and ends the process), persist the exported wallet, rebuild
`agentkit`.  `current_chain_id` is read but never assigned. -/
def initialize_agent (env : Env) (s : GState) : Except String Unit × GState :=
  match env.constructDefault s.wallet_data_file with
  | Except.error e => (Except.error e, s)
  | Except.ok p =>
    let s1 := { s with
      wallet_provider := some p
      wallet_data_file := some (env.export_wallet p) }
    match env.mk_agentkit p with
    | Except.error e => (Except.error e, s1)
    | Except.ok ak => (Except.ok (), { s1 with agentkit := some ak })

/-- Boolean prefix test on strings (via the character lists). -/
def strHasPrefix (p s : String) : Bool := p.data.isPrefixOf s.data

/-- Boolean test that `p` occurs as a contiguous sublist of `l`. -/
def hasSubList (p : List Char) : List Char → Bool
  | [] => p.isEmpty
  | c :: rest => p.isPrefixOf (c :: rest) || hasSubList p rest

/-- Boolean substring test: `pat` occurs contiguously inside `s`. -/
def strContains (s pat : String) : Bool := hasSubList pat.data s.data

/-- Modelled from the spec: the two-phase bridge composite
`bridge(source_chain_id, destination_chain_id, address, amount)` of section
4.5 is not a function of `src/chatbot.py`; the out-of-scope agent layer
composes the repository's tools following the system prompt of
`initialize_agent` (lines 916 to 928): switch to the source chain (the
switch tool tolerates "already on"), `crosschainBurn` there, switch to the
destination chain, `crosschainMint` there, stopping after any step whose
textual result reports an error.  The steps themselves are exactly the
repository's `switch_network`, `crosschain_burn` and `crosschain_mint`; the
value returned is the transcript of step results the caller sees. -/
def bridge (env : Env) (source dest addr : String) (amount : Int) (s : GState) :
    Except String (List String) × GState :=
  let r1 := switch_network env source s
  if strHasPrefix "Error" r1.1 then (Except.ok [r1.1], r1.2.1)
  else
    match (r1.2.1).wallet_provider with
    | none => (Except.error "NoneType object has no attribute", r1.2.1)
    | some p =>
      match crosschain_burn env p addr amount r1.2.1 with
      | (Except.error e, _) => (Except.error e, r1.2.1)
      | (Except.ok burnMsg, _) =>
        if strHasPrefix "Error" burnMsg then (Except.ok [r1.1, burnMsg], r1.2.1)
        else
          let r2 := switch_network env dest r1.2.1
          if strHasPrefix "Error" r2.1 then (Except.ok [r1.1, burnMsg, r2.1], r2.2.1)
          else
            match (r2.2.1).wallet_provider with
            | none => (Except.error "NoneType object has no attribute", r2.2.1)
            | some p2 =>
              match crosschain_mint env p2 addr amount r2.2.1 with
              | (Except.error e, _) => (Except.error e, r2.2.1)
              | (Except.ok mintMsg, _) =>
                  (Except.ok [r1.1, burnMsg, r2.1, mintMsg], r2.2.1)

/-- One state-mutating entry point of the module: `switch_network` (also
reached through `parse_switch_network_args`), `get_cdp_wallet_provider_for_chain`
(also reached through `verify_all_chains`), or `initialize_agent`.  The other
operations never assign the module globals. -/
inductive Step : GState → GState → Prop where
  | switchNet (env : Env) (cid : String) (s : GState) :
      Step s (switch_network env cid s).2.1
  | getProvider (env : Env) (cid : String) (s : GState) :
      Step s (get_cdp_wallet_provider_for_chain env cid s).2.1
  | initAgent (env : Env) (s : GState) :
      Step s (initialize_agent env s).2

/-- States the process can reach: the import-time state followed by any
sequence of state-mutating operations. -/
inductive Reachable : GState → Prop where
  | init (file : Option String) : Reachable (initState file)
  | step {s s' : GState} : Reachable s → Step s s' → Reachable s'

/-- Count of persistence writes in an effect trace. -/
def countPersistWrites (t : List Effect) : Nat :=
  (t.filter fun e => match e with | Effect.persistWrite _ => true | _ => false).length

/-- Count of provider constructions in an effect trace. -/
def countConstructs (t : List Effect) : Nat :=
  (t.filter fun e => match e with | Effect.constructProvider _ => true | _ => false).length

/-- A benign environment in which every external call succeeds: construction
yields a provider (pid 3) on the requested chain, transactions return hash
"0xAB", receipts and reads succeed. -/
def envOK : Env :=
  { construct := fun cid _ => Except.ok ⟨3, ⟨cid, none⟩⟩
    constructDefault := fun _ => Except.ok ⟨3, ⟨"84532", none⟩⟩
    get_balance := fun _ => Except.ok 7
    transact := fun _ _ _ _ _ => Except.ok "0xAB"
    wait_receipt := fun _ _ => Except.ok "rcpt"
    export_wallet := fun _ => "wd"
    mk_agentkit := fun p => Except.ok ⟨p⟩
    read_call := fun _ _ _ _ => Except.ok 7 }

/-- An environment in which everything up to and including the liveness probe
succeeds (the fresh provider, pid 1, reports the requested chain) but the
`AgentKit` reconstruction raises. -/
def envC1 : Env :=
  { construct := fun cid _ => Except.ok ⟨1, ⟨cid, none⟩⟩
    constructDefault := fun _ => Except.ok ⟨0, ⟨"84532", none⟩⟩
    get_balance := fun _ => Except.ok 0
    transact := fun _ _ _ _ _ => Except.ok "0xTX"
    wait_receipt := fun _ _ => Except.ok "receipt"
    export_wallet := fun _ => "walletdata"
    mk_agentkit := fun _ => Except.error "agentkit init failed"
    read_call := fun _ _ _ _ => Except.ok 0 }

/-- An environment in which `CdpWalletProvider` construction raises. -/
def envConstructFail : Env :=
  { envC1 with construct := fun _ _ => Except.error "no api key" }

/-- An environment in which `transact_contract` raises. -/
def envTxFail : Env :=
  { envOK with transact := fun _ _ _ _ _ => Except.error "boom" }

/-- The provider active on Base Sepolia in the bridge scenario. -/
def pBase : Provider := ⟨1, ⟨"84532", none⟩⟩

/-- A session already initialized on Base Sepolia. -/
def stC3 : GState :=
  { wallet_provider := some pBase
    current_chain_id := "84532"
    wallet_providers_cache := [("84532", pBase)]
    agentkit := some ⟨pBase⟩
    wallet_data_file := some "wd" }

/-- A bridge-scenario environment: the burn transaction succeeds with hash
"0xBURNHASH", every other transaction (in particular the destination mint)
raises "execution reverted"; switching itself succeeds. -/
def envC3 : Env :=
  { construct := fun cid _ => Except.ok ⟨2, ⟨cid, none⟩⟩
    constructDefault := fun _ => Except.ok pBase
    get_balance := fun _ => Except.ok 5
    transact := fun _ _ fn _ _ =>
      if fn = "crosschainBurn" then Except.ok "0xBURNHASH"
      else Except.error "execution reverted"
    wait_receipt := fun _ _ => Except.ok "rcpt"
    export_wallet := fun _ => "wd2"
    mk_agentkit := fun p => Except.ok ⟨p⟩
    read_call := fun _ _ _ _ => Except.ok 0 }

theorem str_data_append (s t : String) : (s ++ t).data = s.data ++ t.data := by
  cases s; cases t; rfl

theorem hasSubList_append_left (p a b : List Char)
    (h : hasSubList p b = true) : hasSubList p (a ++ b) = true := by
  induction a with
  | nil => simpa using h
  | cons c rest ih => simp [hasSubList, ih]

theorem dictLookup_erase_self {α : Type} (c : List (String × α)) (k : String) :
    dictLookup (dictErase c k) k = none := by
  induction c with
  | nil => rfl
  | cons kv rest ih =>
    by_cases h : kv.1 = k
    · simp [dictErase, h, ih]
    · simp [dictErase, dictLookup, h, ih]

theorem dictLookup_insert_self {α : Type} (c : List (String × α)) (k : String) (v : α) :
    dictLookup (dictInsert c k v) k = some v := by
  induction c with
  | nil => simp [dictInsert, dictLookup]
  | cons kv rest ih =>
    by_cases h : kv.1 = k
    · simp [dictInsert, h, dictLookup]
    · simp [dictInsert, dictLookup, h, ih]

/-- C2: with a provider whose reported chain differs from the global
`current_chain_id`, both `invoke_contract_function` and `read_contract`
return the structured chain-mismatch error dictionary and perform no
contract call or any other network effect (empty effect trace). -/
theorem claim2_chain_affinity_guard (env : Env) (p : Provider) (fn : String)
    (args : List Arg) (value : ℚ) (s : GState)
    (h : p.network.chain_id ≠ s.current_chain_id) :
    invoke_contract_function env p fn args value s =
      (InvokeResult.err ("Chain mismatch: Wallet on chain " ++ p.network.chain_id ++
        ", but global chain is " ++ s.current_chain_id), []) ∧
    read_contract env p fn args s =
      (ReadResult.err ("Chain mismatch: provider on chain " ++ p.network.chain_id ++
        ", global chain is " ++ s.current_chain_id), []) := by
  constructor <;>
    simp [invoke_contract_function, invoke_contract_body, read_contract,
      read_contract_body, h]

/-- C4: switching to a chain id absent from `SUPPORTED_CHAINS` returns the
"not supported" error string that lists every supported id (in particular
"84532"), with the whole state (session globals and provider cache) unchanged
and no effects. -/
theorem claim4_unsupported_chain_switch (env : Env) (cid : String) (s : GState)
    (h : dictLookup SUPPORTED_CHAINS cid = none) :
    switch_network env cid s =
      ("Error: Chain ID " ++ cid ++ " not supported. Must be one of: " ++ chainListing,
        s, []) ∧
    strContains (switch_network env cid s).1 "not supported" = true ∧
    strContains (switch_network env cid s).1 "84532" = true := by
  have hmsg : switch_network env cid s =
      ("Error: Chain ID " ++ cid ++ " not supported. Must be one of: " ++ chainListing,
        s, []) := by
    simp [switch_network, h]
  refine ⟨hmsg, ?_, ?_⟩ <;>
  · rw [hmsg]
    unfold strContains
    rw [str_data_append, str_data_append, str_data_append, List.append_assoc,
      List.append_assoc]
    apply hasSubList_append_left
    apply hasSubList_append_left
    rw [← str_data_append]
    decide

/-- C5: `get_cdp_wallet_provider_for_chain` is idempotent across a miss
followed by a hit: with the cache initially missing `cid` and provider
construction succeeding, the first call returns the new provider with exactly
one persistence write and one construction, and the second call returns the
very same provider object with no effects at all (no write, no construction)
and no state change. -/
theorem claim5_provider_cache_idempotent (env : Env) (cid : String) (s : GState)
    (p : Provider)
    (hmiss : dictLookup s.wallet_providers_cache cid = none)
    (hc : env.construct cid s.wallet_data_file = Except.ok p) :
    ∃ s1 t1,
      get_cdp_wallet_provider_for_chain env cid s = (Except.ok p, s1, t1) ∧
      get_cdp_wallet_provider_for_chain env cid s1 = (Except.ok p, s1, []) ∧
      countPersistWrites t1 = 1 ∧
      countConstructs t1 = 1 := by
  refine ⟨{ s with
      wallet_providers_cache := dictInsert s.wallet_providers_cache cid p
      wallet_data_file := some (env.export_wallet p) },
    [Effect.constructProvider cid, Effect.cacheStore cid,
     Effect.persistWrite (env.export_wallet p)], ?_, ?_, ?_, ?_⟩
  · simp [get_cdp_wallet_provider_for_chain, hmiss, hc]
  · simp [get_cdp_wallet_provider_for_chain, dictLookup_insert_self]
  · simp [countPersistWrites]
  · simp [countConstructs]

/-- C6: switching to the chain that is already active is a no-op: it returns
the "Already on" status, performs no cache operation and no network call
(empty effect trace), and leaves the whole global state unchanged. -/
theorem claim6_switch_to_current_noop (env : Env) (s : GState) (info : ChainInfo)
    (h : dictLookup SUPPORTED_CHAINS s.current_chain_id = some info) :
    switch_network env s.current_chain_id s =
      ("Already on " ++ info.name ++ " (Chain ID: " ++ s.current_chain_id ++ ")",
        s, []) := by
  simp [switch_network, h]

/-- C7: `invoke_contract_function` converts every exception escaping its
`try` body (submission, receipt wait, or any other raise) into the
structured error dictionary with the exception message, instead of
propagating it. -/
theorem claim7_invoke_catches_exceptions (env : Env) (p : Provider) (fn : String)
    (args : List Arg) (value : ℚ) (s : GState) (e : String) (t : List Effect)
    (h : invoke_contract_body env p fn args value s = (Except.error e, t)) :
    invoke_contract_function env p fn args value s = (InvokeResult.err e, t) := by
  simp [invoke_contract_function, h]

/-- C8: when the affinity check passes and the native value is positive,
`invoke_contract_function` submits the transaction with the integer value
`int(value * 10 ** 18)` (exact-decimal product truncated to an integer) and
with the contract address taken from the registry entry of the currently
active chain; the transact call is the first network effect performed. -/
theorem claim8_wei_conversion_and_address (env : Env) (p : Provider) (fn : String)
    (args : List Arg) (v : ℚ) (s : GState) (info : ChainInfo)
    (hmatch : p.network.chain_id = s.current_chain_id)
    (hreg : dictLookup SUPPORTED_CHAINS s.current_chain_id = some info)
    (hv : 0 < v) :
    ∃ rest, (invoke_contract_function env p fn args v s).2 =
      Effect.transactCall p.pid info.contract_address fn args (pyInt (v * 10 ^ 18))
        :: rest := by
  cases ht : env.transact p info.contract_address fn args (pyInt (v * 10 ^ 18)) with
  | error e =>
    exact ⟨[], by simp [invoke_contract_function, invoke_contract_body,
      get_contract_address, hreg, hmatch, hv, ht]⟩
  | ok tx =>
    cases hr : env.wait_receipt p tx with
    | error e =>
      exact ⟨[Effect.receiptWait p.pid tx], by simp [invoke_contract_function,
        invoke_contract_body, get_contract_address, hreg, hmatch, hv, ht, hr]⟩
    | ok rc =>
      exact ⟨[Effect.receiptWait p.pid tx], by simp [invoke_contract_function,
        invoke_contract_body, get_contract_address, get_chain_name, get_explorer_url,
        hreg, hmatch, hv, ht, hr]⟩

/-- C9: every successful write result carries
`explorer_url = {registry explorer base of the active chain}/tx/{tx_hash}`,
built exactly by that concatenation. -/
theorem claim9_explorer_url_exact (env : Env) (p : Provider) (fn : String)
    (args : List Arg) (v : ℚ) (s : GState) (r : TxOk) (t : List Effect)
    (hok : invoke_contract_function env p fn args v s = (InvokeResult.ok r, t)) :
    ∃ info, dictLookup SUPPORTED_CHAINS s.current_chain_id = some info ∧
      r.explorer_url = info.explorer_url ++ "/tx/" ++ r.tx_hash := by
  have hbody : invoke_contract_body env p fn args v s =
      (Except.ok (InvokeResult.ok r), t) := by
    revert hok
    unfold invoke_contract_function
    rcases hb : invoke_contract_body env p fn args v s with ⟨res, tr⟩
    cases res with
    | ok ir =>
      intro h
      rw [Prod.mk.injEq] at h
      rw [h.1, h.2]
    | error e =>
      intro h
      rw [Prod.mk.injEq] at h
      exact absurd h.1 (by simp)
  simp only [invoke_contract_body] at hbody
  split at hbody
  · simp at hbody
  · split at hbody
    · simp at hbody
    next ca hca =>
      split at hbody
      · simp at hbody
      next tx htx =>
        split at hbody
        · simp at hbody
        next rc hrc =>
          split at hbody
          · simp at hbody
          next cn hcn =>
            split at hbody
            · simp at hbody
            next eu heu =>
              unfold get_explorer_url at heu
              rw [Prod.mk.injEq] at hbody
              have hr : InvokeResult.ok
                  { tx_hash := tx, receipt := rc, chain_id := s.current_chain_id,
                    chain_name := cn, explorer_url := eu ++ "/tx/" ++ tx } =
                  InvokeResult.ok r := by
                have := hbody.1
                simpa using this
              rw [InvokeResult.ok.injEq] at hr
              cases hl : dictLookup SUPPORTED_CHAINS s.current_chain_id with
              | none => rw [hl] at heu; simp at heu
              | some info =>
                rw [hl] at heu
                have heu2 : info.explorer_url = eu := by simpa using heu
                refine ⟨info, rfl, ?_⟩
                rw [← hr, heu2]

/-- C1 (amended): a switch attempt that fails during validation — provider
construction failure, provider network-identity mismatch, or liveness-probe
(get_balance) failure, i.e. any failure before the commit point — leaves the
session state (`current_chain_id` and `wallet_provider`) exactly at its
pre-switch value; but an exception raised after the commit (during the
`AgentKit` rebuild) returns the catch-all error string with the session state
already switched to the target, so the original "any exception anywhere"
form of the claim does not hold. -/
theorem claim1_switch_failure_preserves_session_amended (env : Env) (cid : String)
    (s : GState) (info : ChainInfo)
    (hreg : dictLookup SUPPORTED_CHAINS cid = some info)
    (hne : cid ≠ s.current_chain_id) :
    (∀ e, env.construct cid s.wallet_data_file = Except.error e →
      (switch_network env cid s).1 = "Error switching to chain " ++ cid ++ ": " ++ e ∧
      (switch_network env cid s).2.1.current_chain_id = s.current_chain_id ∧
      (switch_network env cid s).2.1.wallet_provider = s.wallet_provider) ∧
    (∀ p, env.construct cid s.wallet_data_file = Except.ok p →
      p.network.chain_id ≠ cid →
      (switch_network env cid s).1 =
        "Error: Provider chain mismatch. Expected " ++ cid ++ ", got " ++
          p.network.chain_id ∧
      (switch_network env cid s).2.1.current_chain_id = s.current_chain_id ∧
      (switch_network env cid s).2.1.wallet_provider = s.wallet_provider) ∧
    (∀ p e, env.construct cid s.wallet_data_file = Except.ok p →
      p.network.chain_id = cid →
      env.get_balance p = Except.error e →
      (switch_network env cid s).1 = "Error connecting to " ++ info.name ++ ": " ++ e ∧
      (switch_network env cid s).2.1.current_chain_id = s.current_chain_id ∧
      (switch_network env cid s).2.1.wallet_provider = s.wallet_provider) ∧
    (∀ p b e, env.construct cid s.wallet_data_file = Except.ok p →
      p.network.chain_id = cid →
      env.get_balance p = Except.ok b →
      env.mk_agentkit p = Except.error e →
      (switch_network env cid s).1 = "Error switching to chain " ++ cid ++ ": " ++ e ∧
      (switch_network env cid s).2.1.current_chain_id = cid ∧
      (switch_network env cid s).2.1.wallet_provider = some p) := by
  by_cases hcache : (dictLookup s.wallet_providers_cache cid).isSome
  · have hmiss : dictLookup (dictErase s.wallet_providers_cache cid) cid = none :=
      dictLookup_erase_self _ _
    refine ⟨?_, ?_, ?_, ?_⟩
    · intro e he
      simp [switch_network, hreg, hne, switch_attempt,
        get_cdp_wallet_provider_for_chain, hcache, hmiss, he]
    · intro p hp hpm
      simp [switch_network, hreg, hne, switch_attempt,
        get_cdp_wallet_provider_for_chain, hcache, hmiss, hp, hpm]
    · intro p e hp hpm hb
      simp [switch_network, hreg, hne, switch_attempt,
        get_cdp_wallet_provider_for_chain, hcache, hmiss, hp, hpm, hb]
    · intro p b e hp hpm hb hak
      simp [switch_network, hreg, hne, switch_attempt,
        get_cdp_wallet_provider_for_chain, hcache, hmiss, hp, hpm, hb, hak]
  · have hmiss : dictLookup s.wallet_providers_cache cid = none :=
      Option.not_isSome_iff_eq_none.mp hcache
    refine ⟨?_, ?_, ?_, ?_⟩
    · intro e he
      simp [switch_network, hreg, hne, switch_attempt,
        get_cdp_wallet_provider_for_chain, hcache, hmiss, he]
    · intro p hp hpm
      simp [switch_network, hreg, hne, switch_attempt,
        get_cdp_wallet_provider_for_chain, hcache, hmiss, hp, hpm]
    · intro p e hp hpm hb
      simp [switch_network, hreg, hne, switch_attempt,
        get_cdp_wallet_provider_for_chain, hcache, hmiss, hp, hpm, hb]
    · intro p b e hp hpm hb hak
      simp [switch_network, hreg, hne, switch_attempt,
        get_cdp_wallet_provider_for_chain, hcache, hmiss, hp, hpm, hb, hak]



/-- C1 counterexample: in `envC1` the fresh provider and the liveness probe
succeed but the `AgentKit` rebuild raises; `switch_network` reports the
failure ("Error switching to chain ...") yet `current_chain_id` has moved
from "84532" to "11155111" and `wallet_provider` to the new provider — a
failed attempt with the session state not at its pre-switch value. -/
theorem claim1_counterexample :
    (switch_network envC1 "11155111" (initState none)).1 =
      "Error switching to chain 11155111: agentkit init failed" ∧
    (initState none).current_chain_id = "84532" ∧
    (switch_network envC1 "11155111" (initState none)).2.1.current_chain_id =
      "11155111" ∧
    (switch_network envC1 "11155111" (initState none)).2.1.wallet_provider =
      some ⟨1, ⟨"11155111", none⟩⟩ := by
  exact ⟨rfl, rfl, rfl, rfl⟩


/-- C1 witness: the amended theorem applied at a concrete pre-commit failure
(provider construction raises "no api key"): the session state is unchanged. -/
theorem claim1_witness :
    dictLookup SUPPORTED_CHAINS "11155111" =
      some ⟨"Ethereum Sepolia", BRIDGE_ADDRESS, "https://sepolia.etherscan.io"⟩ ∧
    ("11155111" : String) ≠ (initState none).current_chain_id ∧
    envConstructFail.construct "11155111" (initState none).wallet_data_file =
      Except.error "no api key" ∧
    ((switch_network envConstructFail "11155111" (initState none)).1 =
        "Error switching to chain 11155111: no api key" ∧
      (switch_network envConstructFail "11155111" (initState none)).2.1.current_chain_id =
        (initState none).current_chain_id ∧
      (switch_network envConstructFail "11155111" (initState none)).2.1.wallet_provider =
        (initState none).wallet_provider) := by
  refine ⟨rfl, by decide, rfl, ?_⟩
  exact (claim1_switch_failure_preserves_session_amended envConstructFail "11155111"
    (initState none) ⟨"Ethereum Sepolia", BRIDGE_ADDRESS, "https://sepolia.etherscan.io"⟩
    rfl (by decide)).1 "no api key" rfl





/-- C3: evaluating the bridge composite at the spec's failing scenario (burn
succeeds on Base Sepolia with hash "0xBURNHASH", the destination mint raises)
shows the final reported status is the generic, unattributed
"Error: execution reverted": it contains neither the burn transaction hash
nor any distinct PartialBridgeFailure marker, contradicting the claim's
required reporting (the burn hash appears only in the earlier burn-step
message). -/
theorem claim3_partial_bridge_generic_error :
    (bridge envC3 "84532" "11155420" "0x1234" 50 stC3).1 =
      Except.ok ["Already on Base Sepolia (Chain ID: 84532)",
        "Successfully burned 50 tokens from 0x1234 on Base Sepolia.\nTransaction: https://sepolia.basescan.org/tx/0xBURNHASH",
        "Switched to Optimism Sepolia (Chain ID: 11155420)",
        "Error: execution reverted"] ∧
    strContains "Error: execution reverted" "0xBURNHASH" = false ∧
    strContains "Error: execution reverted" "PartialBridgeFailure" = false ∧
    strContains "Successfully burned 50 tokens from 0x1234 on Base Sepolia.\nTransaction: https://sepolia.basescan.org/tx/0xBURNHASH" "0xBURNHASH" = true := by
  exact ⟨rfl, by decide, by decide, by decide⟩


theorem get_cdp_preserves_current (env : Env) (cid : String) (s : GState) :
    (get_cdp_wallet_provider_for_chain env cid s).2.1.current_chain_id =
      s.current_chain_id := by
  cases h1 : dictLookup s.wallet_providers_cache cid with
  | some p => simp [get_cdp_wallet_provider_for_chain, h1]
  | none =>
    cases h2 : env.construct cid s.wallet_data_file with
    | error e => simp [get_cdp_wallet_provider_for_chain, h1, h2]
    | ok p => simp [get_cdp_wallet_provider_for_chain, h1, h2]

theorem initialize_agent_preserves_current (env : Env) (s : GState) :
    (initialize_agent env s).2.current_chain_id = s.current_chain_id := by
  cases h1 : env.constructDefault s.wallet_data_file with
  | error e => simp [initialize_agent, h1]
  | ok p =>
    cases h2 : env.mk_agentkit p with
    | error e => simp [initialize_agent, h1, h2]
    | ok ak => simp [initialize_agent, h1, h2]

theorem switch_attempt_current_cases (env : Env) (cid : String) (info : ChainInfo)
    (s : GState) :
    (switch_attempt env cid info s).2.1.current_chain_id = s.current_chain_id ∨
    (switch_attempt env cid info s).2.1.current_chain_id = cid := by
  unfold switch_attempt
  rcases hg : get_cdp_wallet_provider_for_chain env cid
      (if (dictLookup s.wallet_providers_cache cid).isSome then
        { s with wallet_providers_cache := dictErase s.wallet_providers_cache cid }
      else s) with ⟨res, s1, t1⟩
  have hcur : s1.current_chain_id = s.current_chain_id := by
    have h := get_cdp_preserves_current env cid
      (if (dictLookup s.wallet_providers_cache cid).isSome then
        { s with wallet_providers_cache := dictErase s.wallet_providers_cache cid }
      else s)
    rw [hg] at h
    simpa using h.trans (by split <;> rfl)
  cases res with
  | error e => left; simp [hg, hcur]
  | ok p =>
    by_cases hm : p.network.chain_id = cid
    · cases hb : env.get_balance p with
      | error e => left; simp [hg, hm, hb, hcur]
      | ok b =>
        cases hak : env.mk_agentkit p with
        | error e => right; simp [hg, hm, hb, hak]
        | ok ak => right; simp [hg, hm, hb, hak]
    · left; simp [hg, hm, hcur]

theorem switch_preserves_supported (env : Env) (cid : String) (s : GState)
    (h : (dictLookup SUPPORTED_CHAINS s.current_chain_id).isSome = true) :
    (dictLookup SUPPORTED_CHAINS
      (switch_network env cid s).2.1.current_chain_id).isSome = true := by
  cases hl : dictLookup SUPPORTED_CHAINS cid with
  | none => simpa [switch_network, hl] using h
  | some info =>
    by_cases he : cid = s.current_chain_id
    · subst he
      simp [switch_network, hl]
    · have hsw : (switch_network env cid s).2.1 = (switch_attempt env cid info s).2.1 := by
        simp [switch_network, hl, he]
      rw [hsw]
      rcases switch_attempt_current_cases env cid info s with hc | hc
      · rw [hc]; exact h
      · rw [hc, hl]; rfl

theorem reachable_chain_supported (s : GState) (h : Reachable s) :
    (dictLookup SUPPORTED_CHAINS s.current_chain_id).isSome = true := by
  induction h with
  | init file => rfl
  | step hr hstep ih =>
    clear hr
    revert ih
    cases hstep <;> intro ih <;>
      first
        | exact switch_preserves_supported _ _ _ ih
        | (rw [get_cdp_preserves_current]; exact ih)
        | (rw [initialize_agent_preserves_current]; exact ih)

/-- C10: in every reachable state, `current_chain_id` is a key of
`SUPPORTED_CHAINS` — it starts at `DEFAULT_CHAIN_ID` and is only reassigned
by `switch_network` after the membership check — so the "not supported"
`ValueError` branches of `get_contract_address`, `get_chain_name` and
`get_explorer_url` are unreachable: all three return `Except.ok`. -/
theorem claim10_current_chain_always_supported (s : GState) (h : Reachable s) :
    (dictLookup SUPPORTED_CHAINS s.current_chain_id).isSome = true ∧
    (∃ a, get_contract_address s = Except.ok a) ∧
    (∃ n, get_chain_name s = Except.ok n) ∧
    (∃ u, get_explorer_url s = Except.ok u) := by
  have hs := reachable_chain_supported s h
  obtain ⟨info, hi⟩ := Option.isSome_iff_exists.mp hs
  exact ⟨hs,
    ⟨info.contract_address, by simp [get_contract_address, hi]⟩,
    ⟨info.name, by simp [get_chain_name, hi]⟩,
    ⟨info.explorer_url, by simp [get_explorer_url, hi]⟩⟩

/-- C10 witness: the invariant applied at the import-time state. -/
theorem claim10_witness :
    Reachable (initState none) ∧
    ((dictLookup SUPPORTED_CHAINS (initState none).current_chain_id).isSome = true ∧
      (∃ a, get_contract_address (initState none) = Except.ok a) ∧
      (∃ n, get_chain_name (initState none) = Except.ok n) ∧
      (∃ u, get_explorer_url (initState none) = Except.ok u)) :=
  ⟨Reachable.init none,
    claim10_current_chain_always_supported (initState none) (Reachable.init none)⟩


/-- C2 witness: the theorem applied at a concrete input. -/
theorem claim2_witness :
    (Provider.mk 9 ⟨"1", none⟩).network.chain_id ≠ (initState none).current_chain_id ∧
    (invoke_contract_function envOK ⟨9, ⟨"1", none⟩⟩ "crosschainMint"
        [Arg.str "0xABC", Arg.int 100] 0 (initState none) =
      (InvokeResult.err "Chain mismatch: Wallet on chain 1, but global chain is 84532",
        []) ∧
     read_contract envOK ⟨9, ⟨"1", none⟩⟩ "balanceOf" [Arg.str "0xABC"] (initState none) =
      (ReadResult.err "Chain mismatch: provider on chain 1, global chain is 84532",
        [])) :=
  ⟨by decide, claim2_chain_affinity_guard envOK ⟨9, ⟨"1", none⟩⟩ "crosschainMint"
    [Arg.str "0xABC", Arg.int 100] 0 (initState none) (by decide)⟩

/-- C4 witness: the theorem applied at a concrete input. -/
theorem claim4_witness :
    dictLookup SUPPORTED_CHAINS "99999" = none ∧
    (switch_network envOK "99999" (initState none) =
      ("Error: Chain ID 99999 not supported. Must be one of: 84532, 11155111, 421614, 11155420, 8453, 1, 42161, 10, 80001, 137",
        initState none, []) ∧
     strContains (switch_network envOK "99999" (initState none)).1 "not supported" = true ∧
     strContains (switch_network envOK "99999" (initState none)).1 "84532" = true) :=
  ⟨rfl, claim4_unsupported_chain_switch envOK "99999" (initState none) rfl⟩

/-- C5 witness: the theorem applied at a concrete input. -/
theorem claim5_witness :
    dictLookup (initState none).wallet_providers_cache "84532" = none ∧
    envOK.construct "84532" (initState none).wallet_data_file =
      Except.ok ⟨3, ⟨"84532", none⟩⟩ ∧
    (∃ s1 t1,
      get_cdp_wallet_provider_for_chain envOK "84532" (initState none) =
        (Except.ok ⟨3, ⟨"84532", none⟩⟩, s1, t1) ∧
      get_cdp_wallet_provider_for_chain envOK "84532" s1 =
        (Except.ok ⟨3, ⟨"84532", none⟩⟩, s1, []) ∧
      countPersistWrites t1 = 1 ∧
      countConstructs t1 = 1) :=
  ⟨rfl, rfl, claim5_provider_cache_idempotent envOK "84532" (initState none)
    ⟨3, ⟨"84532", none⟩⟩ rfl rfl⟩

/-- C6 witness: the theorem applied at a concrete input. -/
theorem claim6_witness :
    dictLookup SUPPORTED_CHAINS (initState none).current_chain_id =
      some ⟨"Base Sepolia", BRIDGE_ADDRESS, "https://sepolia.basescan.org"⟩ ∧
    switch_network envOK (initState none).current_chain_id (initState none) =
      ("Already on Base Sepolia (Chain ID: 84532)", initState none, []) :=
  ⟨rfl, claim6_switch_to_current_noop envOK (initState none)
    ⟨"Base Sepolia", BRIDGE_ADDRESS, "https://sepolia.basescan.org"⟩ rfl⟩

/-- C7 witness: the theorem applied at a concrete input. -/
theorem claim7_witness :
    invoke_contract_body envTxFail ⟨4, ⟨"84532", none⟩⟩ "withdraw" [Arg.int 100] 0
        (initState none) =
      (Except.error "boom",
        [Effect.transactCall 4 BRIDGE_ADDRESS "withdraw" [Arg.int 100] 0]) ∧
    invoke_contract_function envTxFail ⟨4, ⟨"84532", none⟩⟩ "withdraw" [Arg.int 100] 0
        (initState none) =
      (InvokeResult.err "boom",
        [Effect.transactCall 4 BRIDGE_ADDRESS "withdraw" [Arg.int 100] 0]) :=
  ⟨rfl, claim7_invoke_catches_exceptions envTxFail ⟨4, ⟨"84532", none⟩⟩ "withdraw"
    [Arg.int 100] 0 (initState none) "boom"
    [Effect.transactCall 4 BRIDGE_ADDRESS "withdraw" [Arg.int 100] 0] rfl⟩

/-- C8 witness: the theorem applied at a concrete input. -/
theorem claim8_witness :
    (Provider.mk 3 ⟨"84532", none⟩).network.chain_id =
      (initState none).current_chain_id ∧
    dictLookup SUPPORTED_CHAINS (initState none).current_chain_id =
      some ⟨"Base Sepolia", BRIDGE_ADDRESS, "https://sepolia.basescan.org"⟩ ∧
    (0 : ℚ) < 1 ∧
    (∃ rest, (invoke_contract_function envOK ⟨3, ⟨"84532", none⟩⟩ "deposit" [] 1
        (initState none)).2 =
      Effect.transactCall 3 BRIDGE_ADDRESS "deposit" [] (pyInt ((1 : ℚ) * 10 ^ 18))
        :: rest) := by
  refine ⟨rfl, rfl, by norm_num, ?_⟩
  exact claim8_wei_conversion_and_address envOK ⟨3, ⟨"84532", none⟩⟩ "deposit" [] 1
    (initState none) ⟨"Base Sepolia", BRIDGE_ADDRESS, "https://sepolia.basescan.org"⟩
    rfl rfl (by norm_num)

/-- C9 witness: the theorem applied at a concrete input. -/
theorem claim9_witness :
    invoke_contract_function envOK ⟨3, ⟨"84532", none⟩⟩ "deposit" [] 1 (initState none) =
      (InvokeResult.ok ⟨"0xAB", "rcpt", "84532", "Base Sepolia",
          "https://sepolia.basescan.org/tx/0xAB"⟩,
        [Effect.transactCall 3 BRIDGE_ADDRESS "deposit" [] (pyInt ((1 : ℚ) * 10 ^ 18)),
         Effect.receiptWait 3 "0xAB"]) ∧
    (∃ info, dictLookup SUPPORTED_CHAINS (initState none).current_chain_id = some info ∧
      TxOk.explorer_url ⟨"0xAB", "rcpt", "84532", "Base Sepolia",
          "https://sepolia.basescan.org/tx/0xAB"⟩ =
        info.explorer_url ++ "/tx/" ++ TxOk.tx_hash ⟨"0xAB", "rcpt", "84532",
          "Base Sepolia", "https://sepolia.basescan.org/tx/0xAB"⟩) := by
  have h : invoke_contract_function envOK ⟨3, ⟨"84532", none⟩⟩ "deposit" [] 1
      (initState none) =
      (InvokeResult.ok ⟨"0xAB", "rcpt", "84532", "Base Sepolia",
          "https://sepolia.basescan.org/tx/0xAB"⟩,
        [Effect.transactCall 3 BRIDGE_ADDRESS "deposit" [] (pyInt ((1 : ℚ) * 10 ^ 18)),
         Effect.receiptWait 3 "0xAB"]) := rfl
  exact ⟨h, claim9_explorer_url_exact envOK ⟨3, ⟨"84532", none⟩⟩ "deposit" [] 1
    (initState none) ⟨"0xAB", "rcpt", "84532", "Base Sepolia",
      "https://sepolia.basescan.org/tx/0xAB"⟩
    [Effect.transactCall 3 BRIDGE_ADDRESS "deposit" [] (pyInt ((1 : ℚ) * 10 ^ 18)),
     Effect.receiptWait 3 "0xAB"] h⟩
